import Mathlib

/-!
Shallow embedding of the render-target (Canvas), Camera and window core of the
tetra 2D game framework, together with proofs of the specified properties.

Source files embedded directly: `src/graphics/canvas.rs` and `src/window.rs`.
The external collaborators (graphics device, window/OS layer) and the parts of
the repository not present under `src/` (Texture, Camera) are modelled from the
specification, as marked on each definition.
-/

namespace Tetra

/-- Sampling filter used when a texture is scaled during drawing
(spec data model: enum of Nearest and Linear). -/
inductive FilterMode where
  | nearest
  | linear
deriving DecidableEq, Repr

/-- Error taxonomy of the framework as specified: `PlatformError` for underlying
graphics/OS API failures, `FailedToChangeDisplayMode` (the spec's
DisplayModeError) for rejected window size/fullscreen changes. -/
inductive TetraError where
  | platformError (msg : String)
  | failedToChangeDisplayMode (msg : String)
deriving DecidableEq, Repr

/-- The `Result` alias used throughout the Rust source: success or a `TetraError`. -/
abbrev TResult (α : Type) : Type := Except TetraError α

/-- Opaque GPU texture handle owned by the device layer. -/
structure TextureHandle where
  id : Nat
deriving DecidableEq, Repr

/-- The device-owned data of a texture; `canvas.rs` accesses `texture.data.handle`. -/
structure TextureData where
  handle : TextureHandle
deriving DecidableEq, Repr

/-- Modelled from the spec: Texture is { width, height, filterMode, gpuHandle };
the gpu handle sits inside `data`, mirroring the `texture.data.handle` access in
`canvas.rs`. (`src/graphics/texture.rs` is not part of the shown source.) -/
structure Texture where
  data : TextureData
  width : Int
  height : Int
  filterMode : FilterMode
deriving DecidableEq, Repr

/-- Opaque framebuffer resource created by the device layer. The `depth` field is
device-layer bookkeeping recording whether a depth buffer was requested when the
resource was created. -/
structure RawFramebuffer where
  fbId : Nat
  depth : Bool
deriving DecidableEq, Repr

/-- Modelled from the spec: the device layer contract (external collaborator):
`createEmptyTexture(width, height, filterMode) -> TextureHandle | PlatformError`
and `newFramebuffer(textureHandle, hasDepthBuffer) -> FramebufferHandle |
PlatformError`. The device is modelled as a deterministic responder to each call. -/
structure GraphicsDevice where
  create_empty_texture : Int → Int → FilterMode → TResult TextureHandle
  new_framebuffer : TextureHandle → Bool → TResult RawFramebuffer

/-- Device contract from the spec: the device layer fails only with a
`PlatformError`. -/
def GraphicsDevice.OnlyPlatformErrors (d : GraphicsDevice) : Prop :=
  (∀ w h fm e, d.create_empty_texture w h fm = .error e → ∃ m, e = .platformError m) ∧
  (∀ th b e, d.new_framebuffer th b = .error e → ∃ m, e = .platformError m)

/-- Device bookkeeping contract: a framebuffer returned by `new_framebuffer`
records the `hasDepthBuffer` flag that was requested for it. -/
def GraphicsDevice.RecordsDepthFlag (d : GraphicsDevice) : Prop :=
  ∀ th b fb, d.new_framebuffer th b = .ok fb → fb.depth = b

/-- Modelled from the spec: `Texture::with_device_empty` (not under `src/`)
allocates an empty GPU texture of the requested size and filter mode via the
device call, failing when the device fails. -/
def Texture.with_device_empty (device : GraphicsDevice) (width height : Int)
    (filter_mode : FilterMode) : TResult Texture :=
  (device.create_empty_texture width height filter_mode).map
    (fun handle =>
      { data := { handle := handle }, width := width, height := height
        filterMode := filter_mode })

/-- Modelled from the spec: `Texture::size` returns (width, height). -/
def Texture.size (t : Texture) : Int × Int :=
  (t.width, t.height)

/-- Modelled from the spec: `Texture::filter_mode` query. -/
def Texture.filter_mode (t : Texture) : FilterMode :=
  t.filterMode

-- -------------------------------------------------------------------------
-- Window layer (external collaborator) and the `window.rs` module.
-- -------------------------------------------------------------------------

/-- Modelled from the spec: the window/OS layer (external collaborator behind
`ctx.window`). Plain fields hold the current window state; the `...Outcome`
fields give the OS's response to each fallible request (`none` = accepted). -/
structure Window where
  title : String
  width : Int
  height : Int
  vsync : Bool
  fullscreen : Bool
  mouse_visible : Bool
  sizeOutcome : Int → Int → Option TetraError
  vsyncOutcome : Bool → Option TetraError
  fullscreenOutcome : Bool → Option TetraError
  mouseOutcome : Bool → Option TetraError
  monitorCount : TResult Int
  monitorName : Int → TResult String
  monitorSize : Int → TResult (Int × Int)
  currentMonitor : TResult Int

/-- Modelled from the spec: collaborator title getter. -/
def Window.get_window_title (w : Window) : String := w.title

/-- Modelled from the spec: collaborator title setter (infallible). -/
def Window.set_window_title (w : Window) (title : String) : Window :=
  { w with title := title }

/-- Modelled from the spec: collaborator width getter (infallible, used as a
plain `i32` by `src/window.rs`). -/
def Window.get_window_width (w : Window) : Int := w.width

/-- Modelled from the spec: collaborator height getter (infallible). -/
def Window.get_window_height (w : Window) : Int := w.height

/-- Modelled from the spec: collaborator size getter (infallible). -/
def Window.get_window_size (w : Window) : Int × Int := (w.width, w.height)

/-- Modelled from the spec: collaborator size setter; on acceptance the window
takes the requested dimensions, otherwise the OS error is returned. -/
def Window.set_window_size (w : Window) (width height : Int) : TResult Window :=
  match w.sizeOutcome width height with
  | some e => .error e
  | none => .ok { w with width := width, height := height }

/-- Modelled from the spec: collaborator vsync setter. -/
def Window.set_vsync_raw (w : Window) (vsync : Bool) : TResult Window :=
  match w.vsyncOutcome vsync with
  | some e => .error e
  | none => .ok { w with vsync := vsync }

/-- Modelled from the spec: collaborator vsync getter (infallible). -/
def Window.is_vsync_enabled_raw (w : Window) : Bool := w.vsync

/-- Modelled from the spec: collaborator fullscreen setter. -/
def Window.set_fullscreen_raw (w : Window) (fullscreen : Bool) : TResult Window :=
  match w.fullscreenOutcome fullscreen with
  | some e => .error e
  | none => .ok { w with fullscreen := fullscreen }

/-- Modelled from the spec: collaborator fullscreen getter (infallible). -/
def Window.is_fullscreen_raw (w : Window) : Bool := w.fullscreen

/-- Modelled from the spec: collaborator mouse-cursor-visibility setter. -/
def Window.set_mouse_visible_raw (w : Window) (visible : Bool) : TResult Window :=
  match w.mouseOutcome visible with
  | some e => .error e
  | none => .ok { w with mouse_visible := visible }

/-- Modelled from the spec: collaborator mouse-cursor-visibility getter
(infallible). -/
def Window.is_mouse_visible_raw (w : Window) : Bool := w.mouse_visible

/-- Modelled from the spec: collaborator monitor size query. -/
def Window.get_monitor_size_raw (w : Window) (monitor_index : Int) :
    TResult (Int × Int) :=
  w.monitorSize monitor_index

-- -------------------------------------------------------------------------
-- Draw parameters and the drawing model.
-- -------------------------------------------------------------------------

/-- A 2D vector with rational coordinates (the source's f32 `Vec2`, embedded
exactly over ℚ). -/
structure Vec2 where
  x : ℚ
  y : ℚ
deriving DecidableEq, Repr

/-- An RGBA colour (the source's f32 colour, embedded over ℚ). -/
structure Color where
  r : ℚ
  g : ℚ
  b : ℚ
  a : ℚ
deriving DecidableEq, Repr

/-- Per-call draw parameters (spec data model: position, origin, scale,
rotation, color); a transient value object, not persisted. -/
structure DrawParams where
  position : Vec2
  origin : Vec2
  scale : Vec2
  rotation : ℚ
  color : Color
deriving DecidableEq, Repr

/-- A GPU draw command as issued into the frame's command stream: the drawn
texture together with the parameters of that one call. -/
structure DrawCommand where
  texture : Texture
  params : DrawParams
deriving DecidableEq, Repr

/-- Graphics-module state inside the context: the configured default filter
mode for new resources and the stream of draw commands issued this frame. -/
structure GraphicsState where
  default_filter_mode : FilterMode
  draws : List DrawCommand

/-- The framework context: game-loop flag, window collaborator, graphics
device, graphics-module state. -/
structure Context where
  running : Bool
  window : Window
  device : GraphicsDevice
  graphics : GraphicsState

/-- Modelled from the spec: `Texture::set_filter_mode` (not under `src/`) sets
the sampling filter of the texture; it takes the context (for the device call)
but the observable result is the updated filter mode. -/
def Texture.set_filter_mode (t : Texture) (_ctx : Context) (filter_mode : FilterMode) :
    Texture :=
  { t with filterMode := filter_mode }

/-- Modelled from the spec: `Texture::draw` (Drawable for Texture, not under
`src/`) issues one GPU draw command, fully determined by the texture and this
call's parameters, into the context's command stream; nothing else changes. -/
def Texture.draw (t : Texture) (ctx : Context) (params : DrawParams) : Context :=
  { ctx with graphics :=
      { ctx.graphics with
        draws := ctx.graphics.draws ++ [{ texture := t, params := params }] } }

-- -------------------------------------------------------------------------
-- Canvas (src/graphics/canvas.rs, embedded directly).
-- -------------------------------------------------------------------------

/-- A canvas: a texture usable for off-screen rendering, composed with the
shared framebuffer wrapping it (`Rc<RawFramebuffer>` in the source; sharing is
by value here since the resource is immutable in the model). -/
structure Canvas where
  texture : Texture
  framebuffer : RawFramebuffer
deriving DecidableEq, Repr

/-- Embeds `Canvas::with_device`: allocate an empty texture of the requested size,
then ask the device to wrap it as a framebuffer with a depth buffer. -/
def Canvas.with_device (device : GraphicsDevice) (width height : Int)
    (filter_mode : FilterMode) : TResult Canvas := do
  let texture ← Texture.with_device_empty device width height filter_mode
  let framebuffer ← device.new_framebuffer texture.data.handle true
  pure { texture := texture, framebuffer := framebuffer }

/-- Embeds `Canvas::new`: create a canvas through the context's device with the
context's default filter mode. -/
def Canvas.new (ctx : Context) (width height : Int) : TResult Canvas :=
  Canvas.with_device ctx.device width height ctx.graphics.default_filter_mode

/-- Embeds `Canvas::width` delegates to the texture. -/
def Canvas.width (c : Canvas) : Int :=
  c.texture.width

/-- Embeds `Canvas::height` delegates to the texture. -/
def Canvas.height (c : Canvas) : Int :=
  c.texture.height

/-- Embeds `Canvas::size` delegates to the texture. -/
def Canvas.size (c : Canvas) : Int × Int :=
  c.texture.size

/-- Embeds `Canvas::filter_mode` delegates to the texture. -/
def Canvas.filter_mode (c : Canvas) : FilterMode :=
  c.texture.filter_mode

/-- Embeds `Canvas::set_filter_mode` delegates to the texture. -/
def Canvas.set_filter_mode (c : Canvas) (ctx : Context) (filter_mode : FilterMode) :
    Canvas :=
  { c with texture := c.texture.set_filter_mode ctx filter_mode }

/-- Embeds `impl Drawable for Canvas`: drawing a canvas draws its texture. -/
def Canvas.draw (c : Canvas) (ctx : Context) (params : DrawParams) : Context :=
  c.texture.draw ctx params

-- -------------------------------------------------------------------------
-- The window.rs module (embedded directly); each function wraps the
-- corresponding collaborator call on `ctx.window`.
-- -------------------------------------------------------------------------

/-- Embeds `window::quit`: stop the game loop at the end of the current cycle. -/
def quit (ctx : Context) : Context :=
  { ctx with running := false }

/-- Embeds `window::get_title` (infallible in the source: returns `&str`). -/
def get_title (ctx : Context) : String :=
  ctx.window.get_window_title

/-- Embeds `window::set_title` (infallible in the source: returns `()`). -/
def set_title (ctx : Context) (title : String) : Context :=
  { ctx with window := ctx.window.set_window_title title }

/-- Embeds `window::get_width` (infallible in the source: returns `i32`). -/
def get_width (ctx : Context) : Int :=
  ctx.window.get_window_width

/-- Embeds `window::get_height` (infallible in the source: returns `i32`). -/
def get_height (ctx : Context) : Int :=
  ctx.window.get_window_height

/-- Embeds `window::get_size` (infallible in the source). -/
def get_size (ctx : Context) : Int × Int :=
  ctx.window.get_window_size

/-- Embeds `window::set_size`: forwards to the collaborator's size setter. -/
def set_size (ctx : Context) (width height : Int) : TResult Context :=
  (ctx.window.set_window_size width height).map
    (fun w => { ctx with window := w })

/-- Embeds `window::set_width`: sets the size to the requested width and the
collaborator's current height. -/
def set_width (ctx : Context) (width : Int) : TResult Context :=
  set_size ctx width ctx.window.get_window_height

/-- Embeds `window::set_height`: sets the size to the collaborator's current width
and the requested height. -/
def set_height (ctx : Context) (height : Int) : TResult Context :=
  set_size ctx ctx.window.get_window_width height

/-- Embeds `window::set_vsync`. -/
def set_vsync (ctx : Context) (vsync : Bool) : TResult Context :=
  (ctx.window.set_vsync_raw vsync).map (fun w => { ctx with window := w })

/-- Embeds `window::is_vsync_enabled` (infallible in the source: returns `bool`). -/
def is_vsync_enabled (ctx : Context) : Bool :=
  ctx.window.is_vsync_enabled_raw

/-- Embeds `window::set_fullscreen`. -/
def set_fullscreen (ctx : Context) (fullscreen : Bool) : TResult Context :=
  (ctx.window.set_fullscreen_raw fullscreen).map (fun w => { ctx with window := w })

/-- Embeds `window::is_fullscreen` (infallible in the source: returns `bool`). -/
def is_fullscreen (ctx : Context) : Bool :=
  ctx.window.is_fullscreen_raw

/-- Embeds `window::set_mouse_visible`. -/
def set_mouse_visible (ctx : Context) (visible : Bool) : TResult Context :=
  (ctx.window.set_mouse_visible_raw visible).map (fun w => { ctx with window := w })

/-- Embeds `window::is_mouse_visible` (infallible in the source: returns `bool`). -/
def is_mouse_visible (ctx : Context) : Bool :=
  ctx.window.is_mouse_visible_raw

/-- Embeds `window::get_monitor_count`. -/
def get_monitor_count (ctx : Context) : TResult Int :=
  ctx.window.monitorCount

/-- Embeds `window::get_monitor_name`. -/
def get_monitor_name (ctx : Context) (monitor_index : Int) : TResult String :=
  ctx.window.monitorName monitor_index

/-- Embeds `window::get_monitor_size`: forwards to the collaborator. -/
def get_monitor_size (ctx : Context) (monitor_index : Int) : TResult (Int × Int) :=
  ctx.window.get_monitor_size_raw monitor_index

/-- Embeds `window::get_monitor_width`: the first component of `get_monitor_size`. -/
def get_monitor_width (ctx : Context) (monitor_index : Int) : TResult Int :=
  (get_monitor_size ctx monitor_index).map (fun p => p.1)

/-- Embeds `window::get_monitor_height`: the second component of `get_monitor_size`. -/
def get_monitor_height (ctx : Context) (monitor_index : Int) : TResult Int :=
  (get_monitor_size ctx monitor_index).map (fun p => p.2)

/-- The window-layer operations named by the spec's window contract: getters
and setters for width, height, title, vsync, fullscreen and mouse visibility. -/
inductive WindowOp where
  | getTitle
  | setTitle
  | getWidth
  | setWidth
  | getHeight
  | setHeight
  | getSize
  | setSize
  | isVsyncEnabled
  | setVsync
  | isFullscreen
  | setFullscreen
  | isMouseVisible
  | setMouseVisible
deriving DecidableEq, Repr

/-- Whether the window-layer operation has a fallible (`Result`) return type,
read off from the function signatures in `src/window.rs`: the display-mode and
cursor setters return `Result`, while every getter, and `set_title`, return
plain values. -/
def WindowOp.fallible : WindowOp → Bool
  | .setWidth => true
  | .setHeight => true
  | .setSize => true
  | .setVsync => true
  | .setFullscreen => true
  | .setMouseVisible => true
  | _ => false

/-- Spec contract for the window collaborator's fallible operations: the OS
rejects a request only with a display-mode error or a platform error. -/
def Window.WellBehaved (w : Window) : Prop :=
  (∀ a b e, w.sizeOutcome a b = some e →
    (∃ m, e = .failedToChangeDisplayMode m) ∨ ∃ m, e = .platformError m) ∧
  (∀ b e, w.vsyncOutcome b = some e →
    (∃ m, e = .failedToChangeDisplayMode m) ∨ ∃ m, e = .platformError m) ∧
  (∀ b e, w.fullscreenOutcome b = some e →
    (∃ m, e = .failedToChangeDisplayMode m) ∨ ∃ m, e = .platformError m) ∧
  (∀ b e, w.mouseOutcome b = some e → ∃ m, e = .platformError m)

/-- Spec contract for the monitor queries: monitor enumeration fails only with
a platform error (monitor state inaccessible). -/
def Window.MonitorSpec (w : Window) : Prop :=
  ∀ i e, w.monitorSize i = .error e → ∃ m, e = .platformError m

-- -------------------------------------------------------------------------
-- Camera (modelled from the spec; `src/graphics/camera.rs` is not part of the
-- shown source, only the example that drives it).
-- -------------------------------------------------------------------------

/-- A 3×3 homogeneous 2D transform matrix over ℚ (the source's f32 matrix,
embedded exactly). -/
structure Mat3 where
  m00 : ℚ
  m01 : ℚ
  m02 : ℚ
  m10 : ℚ
  m11 : ℚ
  m12 : ℚ
  m20 : ℚ
  m21 : ℚ
  m22 : ℚ
deriving DecidableEq, Repr

/-- Matrix product. -/
def Mat3.mul (a b : Mat3) : Mat3 where
  m00 := a.m00 * b.m00 + a.m01 * b.m10 + a.m02 * b.m20
  m01 := a.m00 * b.m01 + a.m01 * b.m11 + a.m02 * b.m21
  m02 := a.m00 * b.m02 + a.m01 * b.m12 + a.m02 * b.m22
  m10 := a.m10 * b.m00 + a.m11 * b.m10 + a.m12 * b.m20
  m11 := a.m10 * b.m01 + a.m11 * b.m11 + a.m12 * b.m21
  m12 := a.m10 * b.m02 + a.m11 * b.m12 + a.m12 * b.m22
  m20 := a.m20 * b.m00 + a.m21 * b.m10 + a.m22 * b.m20
  m21 := a.m20 * b.m01 + a.m21 * b.m11 + a.m22 * b.m21
  m22 := a.m20 * b.m02 + a.m21 * b.m12 + a.m22 * b.m22

/-- Application of a homogeneous transform to a 2D point (homogeneous
coordinate 1, affine transforms). -/
def Mat3.apply (m : Mat3) (v : Vec2) : Vec2 :=
  { x := m.m00 * v.x + m.m01 * v.y + m.m02
    y := m.m10 * v.x + m.m11 * v.y + m.m12 }

/-- Translation by a 2D vector. -/
def Mat3.translation (v : Vec2) : Mat3 :=
  { m00 := 1, m01 := 0, m02 := v.x
    m10 := 0, m11 := 1, m12 := v.y
    m20 := 0, m21 := 0, m22 := 1 }

/-- Rotation about the z axis by an angle whose cosine is `c` and sine is `s`
(the trigonometric evaluation itself is supplied by `Trig`). -/
def Mat3.rotationZ (c s : ℚ) : Mat3 :=
  { m00 := c, m01 := -s, m02 := 0
    m10 := s, m11 := c, m12 := 0
    m20 := 0, m21 := 0, m22 := 1 }

/-- Uniform 2D scaling. -/
def Mat3.scaling (k : ℚ) : Mat3 :=
  { m00 := k, m01 := 0, m02 := 0
    m10 := 0, m11 := k, m12 := 0
    m20 := 0, m21 := 0, m22 := 1 }

/-- The identity transform. -/
def Mat3.identity : Mat3 :=
  { m00 := 1, m01 := 0, m02 := 0
    m10 := 0, m11 := 1, m12 := 0
    m20 := 0, m21 := 0, m22 := 1 }

/-- An exact stand-in for the f32 trigonometric primitives, evaluated over ℚ;
the camera model is parameterized by it so the composition holds for any
trigonometric evaluation. -/
structure Trig where
  cos : ℚ → ℚ
  sin : ℚ → ℚ

/-- Modelled from the spec: Camera { position, rotation (radians), zoom,
viewportWidth, viewportHeight, cachedMatrix }, with direct field mutation and
an explicit recompute step. -/
structure Camera where
  position : Vec2
  rotation : ℚ
  zoom : ℚ
  viewport_width : ℚ
  viewport_height : ℚ
  matrix : Mat3

/-- Modelled from the spec: `Camera::update` recomputes the cached matrix as
the single combined transform taking world space to screen space: translate by
-position, then rotate by -rotation, then scale by zoom, then translate by
(viewportWidth / 2, viewportHeight / 2). -/
def Camera.update (trig : Trig) (cam : Camera) : Camera :=
  { cam with matrix :=
      ((Mat3.translation { x := cam.viewport_width / 2, y := cam.viewport_height / 2 }).mul
        ((Mat3.scaling cam.zoom).mul
          ((Mat3.rotationZ (trig.cos (-cam.rotation)) (trig.sin (-cam.rotation))).mul
            (Mat3.translation { x := -cam.position.x, y := -cam.position.y })))) }

/-- Modelled from the spec: `Camera::as_matrix` returns the last computed
matrix without recomputation. -/
def Camera.as_matrix (cam : Camera) : Mat3 :=
  cam.matrix

/-- The exact trigonometric evaluation of the zero angle, constant elsewhere:
enough for the rotation-free composition checks. -/
def trigZero : Trig where
  cos := fun _ => 1
  sin := fun _ => 0

/-- A concrete camera in its initial state: origin position, no rotation,
unit zoom, 640×480 viewport, identity cached matrix. -/
def exampleCamera : Camera where
  position := { x := 0, y := 0 }
  rotation := 0
  zoom := 1
  viewport_width := 640
  viewport_height := 480
  matrix := Mat3.identity

-- -------------------------------------------------------------------------
-- Concrete instances used by the witnesses.
-- -------------------------------------------------------------------------

/-- A device that always succeeds, echoing the requested depth flag into the
framebuffer record. -/
def okDevice : GraphicsDevice where
  create_empty_texture := fun _ _ _ => .ok { id := 1 }
  new_framebuffer := fun _ b => .ok { fbId := 2, depth := b }

/-- A device that rejects non-positive dimensions with a platform error and
otherwise behaves like `okDevice`. -/
def strictDevice : GraphicsDevice where
  create_empty_texture := fun w h _ =>
    if 0 < w ∧ 0 < h then .ok { id := 1 }
    else .error (.platformError "invalid texture size")
  new_framebuffer := fun _ b => .ok { fbId := 2, depth := b }

/-- A window collaborator in a fixed benign state: every request is accepted
and the monitor layer reports one 1920×1080 monitor. -/
def okWindow : Window where
  title := "tetra"
  width := 640
  height := 480
  vsync := true
  fullscreen := false
  mouse_visible := true
  sizeOutcome := fun _ _ => none
  vsyncOutcome := fun _ => none
  fullscreenOutcome := fun _ => none
  mouseOutcome := fun _ => none
  monitorCount := .ok 1
  monitorName := fun _ => .ok "Monitor 0"
  monitorSize := fun _ => .ok (1920, 1080)
  currentMonitor := .ok 0

/-- A window collaborator whose OS rejects every display-mode request and
whose monitor state is inaccessible. -/
def failWindow : Window where
  title := "tetra"
  width := 640
  height := 480
  vsync := true
  fullscreen := false
  mouse_visible := true
  sizeOutcome := fun _ _ => some (.failedToChangeDisplayMode "rejected")
  vsyncOutcome := fun _ => some (.failedToChangeDisplayMode "rejected")
  fullscreenOutcome := fun _ => some (.failedToChangeDisplayMode "rejected")
  mouseOutcome := fun _ => some (.platformError "cursor state inaccessible")
  monitorCount := .error (.platformError "monitor state inaccessible")
  monitorName := fun _ => .error (.platformError "monitor state inaccessible")
  monitorSize := fun _ => .error (.platformError "monitor state inaccessible")
  currentMonitor := .error (.platformError "monitor state inaccessible")

/-- A concrete context built over `okDevice` and `okWindow`. -/
def okContext : Context where
  running := true
  window := okWindow
  device := okDevice
  graphics := { default_filter_mode := .linear, draws := [] }

/-- A concrete context built over `okDevice` and `failWindow`. -/
def failContext : Context where
  running := true
  window := failWindow
  device := okDevice
  graphics := { default_filter_mode := .linear, draws := [] }

-- -------------------------------------------------------------------------
-- Theorems: claim C1.
-- -------------------------------------------------------------------------

/-- Claim C1: for every width > 0 and height > 0, if canvas creation through
`Canvas::with_device` (and hence `Canvas::new`) succeeds, the canvas's `size()`
is exactly (width, height) and `width()`/`height()` return the requested
dimensions. -/
theorem canvas_size_matches_request (device : GraphicsDevice) (ctx : Context)
    (width height : Int) (fm : FilterMode) (c c' : Canvas)
    (hw : 0 < width) (hh : 0 < height)
    (hcd : Canvas.with_device device width height fm = .ok c)
    (hcn : Canvas.new ctx width height = .ok c') :
    c.size = (width, height) ∧ c.width = width ∧ c.height = height ∧
      c'.size = (width, height) ∧ c'.width = width ∧ c'.height = height := by
  have main : ∀ (d : GraphicsDevice) (f : FilterMode) (cv : Canvas),
      Canvas.with_device d width height f = .ok cv →
      cv.size = (width, height) ∧ cv.width = width ∧ cv.height = height := by
    intro d f cv h
    unfold Canvas.with_device Texture.with_device_empty at h
    rcases hct : d.create_empty_texture width height f with e | th
    · rw [hct] at h
      simp [Except.map, Bind.bind, Except.bind] at h
    · rw [hct] at h
      rcases hfb : d.new_framebuffer th true with e | fb
      · simp [Except.map, Bind.bind, Except.bind, hfb] at h
      · simp [Except.map, Bind.bind, Except.bind, hfb, pure, Except.pure] at h
        subst h
        simp [Canvas.size, Canvas.width, Canvas.height, Texture.size]
  exact ⟨(main device fm c hcd).1, (main device fm c hcd).2.1, (main device fm c hcd).2.2,
    (main ctx.device ctx.graphics.default_filter_mode c' hcn).1,
    (main ctx.device ctx.graphics.default_filter_mode c' hcn).2.1,
    (main ctx.device ctx.graphics.default_filter_mode c' hcn).2.2⟩

/-- Witness for C1: creating a 640×480 canvas through the concrete context
succeeds and the theorem yields the requested size. -/
theorem canvas_size_matches_request_witness :
    0 < (640 : Int) ∧ 0 < (480 : Int) ∧
    Canvas.with_device okDevice 640 480 .nearest =
      .ok { texture := { data := { handle := { id := 1 } }, width := 640, height := 480,
                         filterMode := .nearest },
            framebuffer := { fbId := 2, depth := true } } ∧
    Canvas.new okContext 640 480 =
      .ok { texture := { data := { handle := { id := 1 } }, width := 640, height := 480,
                         filterMode := .linear },
            framebuffer := { fbId := 2, depth := true } } ∧
    ({ texture := { data := { handle := { id := 1 } }, width := 640, height := 480,
                    filterMode := .nearest },
       framebuffer := { fbId := 2, depth := true } } : Canvas).size = (640, 480) := by
  refine ⟨by decide, by decide, rfl, rfl, ?_⟩
  exact (canvas_size_matches_request okDevice okContext 640 480 .nearest _ _
    (by decide) (by decide) rfl rfl).1

-- -------------------------------------------------------------------------
-- Theorems: claims C4, C5, C10 (canvas creation, filter mode, depth buffer).
-- -------------------------------------------------------------------------

/-- Claim C4: canvas creation fails by returning a `PlatformError` whenever the
device cannot allocate the texture or the framebuffer; the device's error is
propagated unchanged (no recovery or retry); and when the device accepts both
allocations, creation succeeds for any dimensions — the canvas does not
pre-validate them. -/
theorem canvas_new_error_propagation (d : GraphicsDevice) (width height : Int)
    (fm : FilterMode) (hspec : d.OnlyPlatformErrors) :
    (∀ e, d.create_empty_texture width height fm = .error e →
      Canvas.with_device d width height fm = .error e) ∧
    (∀ th e, d.create_empty_texture width height fm = .ok th →
      d.new_framebuffer th true = .error e →
      Canvas.with_device d width height fm = .error e) ∧
    (∀ th fb, d.create_empty_texture width height fm = .ok th →
      d.new_framebuffer th true = .ok fb →
      Canvas.with_device d width height fm =
        .ok { texture := { data := { handle := th }, width := width, height := height,
                           filterMode := fm },
              framebuffer := fb }) ∧
    (∀ e, Canvas.with_device d width height fm = .error e →
      ∃ m, e = .platformError m) := by
  refine ⟨?_, ?_, ?_, ?_⟩
  · intro e h
    simp [Canvas.with_device, Texture.with_device_empty, h, Except.map,
      Bind.bind, Except.bind]
  · intro th e h1 h2
    simp [Canvas.with_device, Texture.with_device_empty, h1, h2, Except.map,
      Bind.bind, Except.bind]
  · intro th fb h1 h2
    simp [Canvas.with_device, Texture.with_device_empty, h1, h2, Except.map,
      Bind.bind, Except.bind, pure, Except.pure]
  · intro e h
    unfold Canvas.with_device Texture.with_device_empty at h
    rcases hct : d.create_empty_texture width height fm with e' | th
    · rw [hct] at h
      simp [Except.map, Bind.bind, Except.bind] at h
      exact h ▸ hspec.1 width height fm e' hct
    · rw [hct] at h
      rcases hfb : d.new_framebuffer th true with e' | fb
      · simp [Except.map, Bind.bind, Except.bind, hfb] at h
        exact h ▸ hspec.2 th true e' hfb
      · simp [Except.map, Bind.bind, Except.bind, hfb, pure, Except.pure] at h

/-- Witness for C4: the strict device's rejection of a 0×0 texture is
propagated by `Canvas::with_device` as the same `PlatformError`, and the
permissive device accepts a -3×-3 canvas (no pre-validation in Canvas). -/
theorem canvas_new_error_propagation_witness :
    strictDevice.OnlyPlatformErrors ∧
    Canvas.with_device strictDevice 0 0 .nearest =
      .error (.platformError "invalid texture size") ∧
    Canvas.with_device okDevice (-3) (-3) .nearest =
      .ok { texture := { data := { handle := { id := 1 } }, width := -3, height := -3,
                         filterMode := .nearest },
            framebuffer := { fbId := 2, depth := true } } := by
  have hspec : strictDevice.OnlyPlatformErrors := by
    constructor
    · intro w h fm e he
      simp only [strictDevice] at he
      by_cases hc : 0 < w ∧ 0 < h
      · simp [hc] at he
      · simp [hc] at he
        exact ⟨"invalid texture size", he.symm⟩
    · intro th b e he
      simp [strictDevice] at he
  refine ⟨hspec, ?_, ?_⟩
  · exact (canvas_new_error_propagation strictDevice 0 0 .nearest hspec).1
      (.platformError "invalid texture size") (by simp [strictDevice])
  · exact (canvas_new_error_propagation okDevice (-3) (-3) .nearest
      (by exact ⟨fun _ _ _ e h => by simp [okDevice] at h,
                 fun _ _ e h => by simp [okDevice] at h⟩)).2.2.1
      { id := 1 } { fbId := 2, depth := true } rfl rfl

/-- Claim C5: a canvas's `filter_mode()` equals the most recently set filter
mode — after any sequence of `set_filter_mode` calls ending in mode `m`, the
query returns `m` — and immediately after `Canvas::new` it equals the
context's configured default filter mode. -/
theorem canvas_filter_mode_last_set (ctx : Context) (width height : Int)
    (c c0 : Canvas) (ms : List FilterMode) (m : FilterMode)
    (hnew : Canvas.new ctx width height = .ok c) :
    c.filter_mode = ctx.graphics.default_filter_mode ∧
    ((ms ++ [m]).foldl (fun acc fm => acc.set_filter_mode ctx fm) c0).filter_mode
      = m := by
  constructor
  · unfold Canvas.new Canvas.with_device Texture.with_device_empty at hnew
    rcases hct : ctx.device.create_empty_texture width height
        ctx.graphics.default_filter_mode with e | th
    · rw [hct] at hnew
      simp [Except.map, Bind.bind, Except.bind] at hnew
    · rw [hct] at hnew
      rcases hfb : ctx.device.new_framebuffer th true with e | fb
      · simp [Except.map, Bind.bind, Except.bind, hfb] at hnew
      · simp [Except.map, Bind.bind, Except.bind, hfb, pure, Except.pure] at hnew
        subst hnew
        simp [Canvas.filter_mode, Texture.filter_mode]
  · rw [List.foldl_append]
    simp [Canvas.filter_mode, Canvas.set_filter_mode, Texture.set_filter_mode,
      Texture.filter_mode]

/-- Witness for C5: a canvas freshly created from `okContext` carries the
context's default (linear) filter, and setting nearest then linear leaves
linear. -/
theorem canvas_filter_mode_last_set_witness :
    Canvas.new okContext 640 480 =
      .ok { texture := { data := { handle := { id := 1 } }, width := 640, height := 480,
                         filterMode := .linear },
            framebuffer := { fbId := 2, depth := true } } ∧
    ({ texture := { data := { handle := { id := 1 } }, width := 640, height := 480,
                    filterMode := .linear },
       framebuffer := { fbId := 2, depth := true } } : Canvas).filter_mode
      = okContext.graphics.default_filter_mode ∧
    (([FilterMode.nearest] ++ [FilterMode.linear]).foldl
        (fun (acc : Canvas) fm => acc.set_filter_mode okContext fm)
        { texture := { data := { handle := { id := 1 } }, width := 640, height := 480,
                       filterMode := .nearest },
          framebuffer := { fbId := 2, depth := true } }).filter_mode
      = FilterMode.linear := by
  have h := canvas_filter_mode_last_set okContext 640 480
    { texture := { data := { handle := { id := 1 } }, width := 640, height := 480,
                   filterMode := .linear },
      framebuffer := { fbId := 2, depth := true } }
    { texture := { data := { handle := { id := 1 } }, width := 640, height := 480,
                   filterMode := .nearest },
      framebuffer := { fbId := 2, depth := true } }
    [FilterMode.nearest] FilterMode.linear rfl
  exact ⟨rfl, h.1, h.2⟩

/-- Claim C10: `Canvas::with_device` (and hence `Canvas::new`) always requests
a depth buffer — for any device whose framebuffers record the requested
depth-buffer flag, a successfully created canvas's framebuffer records `true`. -/
theorem canvas_framebuffer_has_depth (d : GraphicsDevice) (ctx : Context)
    (width height : Int) (fm : FilterMode) (c c' : Canvas)
    (hrec : d.RecordsDepthFlag) (hrec' : ctx.device.RecordsDepthFlag)
    (hcd : Canvas.with_device d width height fm = .ok c)
    (hcn : Canvas.new ctx width height = .ok c') :
    c.framebuffer.depth = true ∧ c'.framebuffer.depth = true := by
  have main : ∀ (dv : GraphicsDevice) (f : FilterMode) (cv : Canvas),
      dv.RecordsDepthFlag → Canvas.with_device dv width height f = .ok cv →
      cv.framebuffer.depth = true := by
    intro dv f cv hr h
    unfold Canvas.with_device Texture.with_device_empty at h
    rcases hct : dv.create_empty_texture width height f with e | th
    · rw [hct] at h
      simp [Except.map, Bind.bind, Except.bind] at h
    · rw [hct] at h
      rcases hfb : dv.new_framebuffer th true with e | fb
      · simp [Except.map, Bind.bind, Except.bind, hfb] at h
      · simp [Except.map, Bind.bind, Except.bind, hfb, pure, Except.pure] at h
        subst h
        exact hr th true fb hfb
  exact ⟨main d fm c hrec hcd, main ctx.device ctx.graphics.default_filter_mode c' hrec' hcn⟩

/-- Witness for C10: the echoing device `okDevice` satisfies the recording
contract, and the canvas it creates has a depth-carrying framebuffer. -/
theorem canvas_framebuffer_has_depth_witness :
    okDevice.RecordsDepthFlag ∧
    Canvas.with_device okDevice 640 480 .nearest =
      .ok { texture := { data := { handle := { id := 1 } }, width := 640, height := 480,
                         filterMode := .nearest },
            framebuffer := { fbId := 2, depth := true } } ∧
    ({ fbId := 2, depth := true } : RawFramebuffer).depth = true := by
  have hrec : okDevice.RecordsDepthFlag := by
    intro th b fb h
    simp [okDevice] at h
    rw [h.symm]
  refine ⟨hrec, rfl, ?_⟩
  exact (canvas_framebuffer_has_depth okDevice okContext 640 480 .nearest _ _
    hrec (by intro th b fb h
             simp [okContext, okDevice] at h
             rw [h.symm]) rfl rfl).1

-- -------------------------------------------------------------------------
-- Theorems: claims C3 and C8 (the Drawable contract).
-- -------------------------------------------------------------------------

/-- Claim C3: `Canvas::draw` performs exactly the operation of drawing the
canvas's backing texture with the same parameters, so a canvas and a texture
with the same backing contents are interchangeable drawables: they transform
any context identically for identical parameters. -/
theorem canvas_draw_delegates_to_texture (c : Canvas) (t : Texture) (ctx : Context)
    (p : DrawParams) (hback : c.texture = t) :
    Canvas.draw c ctx p = Texture.draw c.texture ctx p ∧
    Canvas.draw c ctx p = Texture.draw t ctx p := by
  constructor
  · rfl
  · rw [Canvas.draw, hback]

/-- Witness for C3: drawing a concrete canvas over `okContext` issues exactly
the command that drawing its texture issues. -/
theorem canvas_draw_delegates_to_texture_witness :
    ({ texture := { data := { handle := { id := 1 } }, width := 640, height := 480,
                    filterMode := .linear },
       framebuffer := { fbId := 2, depth := true } } : Canvas).texture =
      { data := { handle := { id := 1 } }, width := 640, height := 480,
        filterMode := .linear } ∧
    Canvas.draw
      { texture := { data := { handle := { id := 1 } }, width := 640, height := 480,
                     filterMode := .linear },
        framebuffer := { fbId := 2, depth := true } }
      okContext
      { position := { x := 0, y := 0 }, origin := { x := 8, y := 8 },
        scale := { x := 2, y := 2 }, rotation := 0,
        color := { r := 1, g := 1, b := 1, a := 1 } } =
    Texture.draw
      { data := { handle := { id := 1 } }, width := 640, height := 480,
        filterMode := .linear }
      okContext
      { position := { x := 0, y := 0 }, origin := { x := 8, y := 8 },
        scale := { x := 2, y := 2 }, rotation := 0,
        color := { r := 1, g := 1, b := 1, a := 1 } } := by
  refine ⟨rfl, ?_⟩
  exact (canvas_draw_delegates_to_texture
    { texture := { data := { handle := { id := 1 } }, width := 640, height := 480,
                   filterMode := .linear },
      framebuffer := { fbId := 2, depth := true } }
    { data := { handle := { id := 1 } }, width := 640, height := 480,
      filterMode := .linear }
    okContext
    { position := { x := 0, y := 0 }, origin := { x := 8, y := 8 },
      scale := { x := 2, y := 2 }, rotation := 0,
      color := { r := 1, g := 1, b := 1, a := 1 } }
    rfl).2

/-- Claim C8: drawing a Canvas or a Texture does not mutate the entity or any
other state: the window, device and default filter mode are untouched, the
only effect is the one appended draw command (determined entirely by the
entity and this call's parameters), and the parameters are not retained — a
later draw appends a command that does not depend on them. -/
theorem draw_does_not_mutate_entity (c : Canvas) (t t' : Texture) (ctx : Context)
    (p p' : DrawParams) :
    (Canvas.draw c ctx p).window = ctx.window ∧
    (Canvas.draw c ctx p).device = ctx.device ∧
    (Canvas.draw c ctx p).running = ctx.running ∧
    (Canvas.draw c ctx p).graphics.default_filter_mode =
      ctx.graphics.default_filter_mode ∧
    (Canvas.draw c ctx p).graphics.draws =
      ctx.graphics.draws ++ [{ texture := c.texture, params := p }] ∧
    (Texture.draw t ctx p).window = ctx.window ∧
    (Texture.draw t ctx p).device = ctx.device ∧
    (Texture.draw t ctx p).running = ctx.running ∧
    (Texture.draw t ctx p).graphics.default_filter_mode =
      ctx.graphics.default_filter_mode ∧
    (Texture.draw t ctx p).graphics.draws =
      ctx.graphics.draws ++ [{ texture := t, params := p }] ∧
    (Texture.draw t' (Canvas.draw c ctx p) p').graphics.draws =
      ctx.graphics.draws ++ [{ texture := c.texture, params := p },
        { texture := t', params := p' }] := by
  refine ⟨rfl, rfl, rfl, rfl, rfl, rfl, rfl, rfl, rfl, rfl, ?_⟩
  simp [Canvas.draw, Texture.draw]

-- -------------------------------------------------------------------------
-- Theorems: claims C6, C7, C9 (the window module).
-- -------------------------------------------------------------------------

/-- Claim C6 counterexample: not every window-layer getter and setter for
width, height, title, vsync, fullscreen and mouse visibility returns a
fallible result — in `src/window.rs`, `get_width` returns a plain `i32` and
`set_title` returns `()`, so neither can fail. -/
theorem window_ops_not_all_fallible :
    WindowOp.fallible .getWidth = false ∧
    WindowOp.fallible .setTitle = false ∧
    WindowOp.fallible .isMouseVisible = false ∧
    ¬ ∀ op : WindowOp, op.fallible = true := by
  refine ⟨rfl, rfl, rfl, fun hall => ?_⟩
  exact absurd (hall .getWidth) (by decide)

/-- Claim C6 (amended): exactly the setters for width, height, size, vsync,
fullscreen and mouse visibility are fallible, and under the window
collaborator's contract they fail only with a display-mode or platform error
(the mouse setter only with a platform error); the getters and `set_title`
return plain values. -/
theorem window_fallible_ops_error_kinds (ctx : Context) (op : WindowOp)
    (w h : Int) (b : Bool) (e1 e2 e3 e4 : TetraError)
    (hwb : ctx.window.WellBehaved) :
    (op.fallible = true ↔
      op = WindowOp.setWidth ∨ op = WindowOp.setHeight ∨ op = WindowOp.setSize ∨
      op = WindowOp.setVsync ∨ op = WindowOp.setFullscreen ∨
      op = WindowOp.setMouseVisible) ∧
    (set_size ctx w h = .error e1 →
      (∃ m, e1 = .failedToChangeDisplayMode m) ∨ ∃ m, e1 = .platformError m) ∧
    (set_vsync ctx b = .error e2 →
      (∃ m, e2 = .failedToChangeDisplayMode m) ∨ ∃ m, e2 = .platformError m) ∧
    (set_fullscreen ctx b = .error e3 →
      (∃ m, e3 = .failedToChangeDisplayMode m) ∨ ∃ m, e3 = .platformError m) ∧
    (set_mouse_visible ctx b = .error e4 → ∃ m, e4 = .platformError m) := by
  refine ⟨by cases op <;> simp [WindowOp.fallible], ?_, ?_, ?_, ?_⟩
  · intro he
    unfold set_size Window.set_window_size at he
    rcases hout : ctx.window.sizeOutcome w h with _ | e
    · simp [hout, Except.map] at he
    · simp [hout, Except.map] at he
      exact he ▸ hwb.1 w h e hout
  · intro he
    unfold set_vsync Window.set_vsync_raw at he
    rcases hout : ctx.window.vsyncOutcome b with _ | e
    · simp [hout, Except.map] at he
    · simp [hout, Except.map] at he
      exact he ▸ hwb.2.1 b e hout
  · intro he
    unfold set_fullscreen Window.set_fullscreen_raw at he
    rcases hout : ctx.window.fullscreenOutcome b with _ | e
    · simp [hout, Except.map] at he
    · simp [hout, Except.map] at he
      exact he ▸ hwb.2.2.1 b e hout
  · intro he
    unfold set_mouse_visible Window.set_mouse_visible_raw at he
    rcases hout : ctx.window.mouseOutcome b with _ | e
    · simp [hout, Except.map] at he
    · simp [hout, Except.map] at he
      exact he ▸ hwb.2.2.2 b e hout

/-- Witness for the amended C6: over `failContext`, the rejected resize
surfaces as a display-mode error, which the theorem classifies. -/
theorem window_fallible_ops_error_kinds_witness :
    failContext.window.WellBehaved ∧
    set_size failContext 1 1 = .error (.failedToChangeDisplayMode "rejected") ∧
    ((∃ m, TetraError.failedToChangeDisplayMode "rejected" =
        .failedToChangeDisplayMode m) ∨
      ∃ m, TetraError.failedToChangeDisplayMode "rejected" = .platformError m) := by
  have hwb : failContext.window.WellBehaved := by
    refine ⟨?_, ?_, ?_, ?_⟩
    · intro a b e he
      simp [failContext, failWindow] at he
      exact Or.inl ⟨"rejected", he.symm⟩
    · intro b e he
      simp [failContext, failWindow] at he
      exact Or.inl ⟨"rejected", he.symm⟩
    · intro b e he
      simp [failContext, failWindow] at he
      exact Or.inl ⟨"rejected", he.symm⟩
    · intro b e he
      simp [failContext, failWindow] at he
      exact ⟨"cursor state inaccessible", he.symm⟩
  refine ⟨hwb, rfl, ?_⟩
  exact (window_fallible_ops_error_kinds failContext .setSize 1 1 true
    (.failedToChangeDisplayMode "rejected") (.failedToChangeDisplayMode "rejected")
    (.failedToChangeDisplayMode "rejected") (.platformError "cursor state inaccessible")
    hwb).2.1 rfl

/-- Claim C7: `get_monitor_width` succeeds with `w` exactly when
`get_monitor_size` succeeds with `(w, h)` for some `h`, symmetrically for
`get_monitor_height`, and when the monitor state is inaccessible all three
fail together with the same platform error. -/
theorem monitor_width_height_from_size (ctx : Context) (i : Int)
    (hms : ctx.window.MonitorSpec) :
    (∀ w, get_monitor_width ctx i = .ok w ↔
      ∃ h, get_monitor_size ctx i = .ok (w, h)) ∧
    (∀ h, get_monitor_height ctx i = .ok h ↔
      ∃ w, get_monitor_size ctx i = .ok (w, h)) ∧
    (∀ e, get_monitor_size ctx i = .error e →
      get_monitor_width ctx i = .error e ∧ get_monitor_height ctx i = .error e ∧
        ∃ m, e = .platformError m) := by
  refine ⟨?_, ?_, ?_⟩
  · intro w
    unfold get_monitor_width get_monitor_size Window.get_monitor_size_raw
    rcases hsz : ctx.window.monitorSize i with e | ⟨mw, mh⟩
    · simp [Except.map]
    · simp [Except.map]
  · intro h
    unfold get_monitor_height get_monitor_size Window.get_monitor_size_raw
    rcases hsz : ctx.window.monitorSize i with e | ⟨mw, mh⟩
    · simp [Except.map]
    · simp [Except.map]
  · intro e he
    unfold get_monitor_size Window.get_monitor_size_raw at he
    refine ⟨?_, ?_, hms i e he⟩
    · unfold get_monitor_width get_monitor_size Window.get_monitor_size_raw
      simp [he, Except.map]
    · unfold get_monitor_height get_monitor_size Window.get_monitor_size_raw
      simp [he, Except.map]

/-- Witness for C7: over `okContext` the single monitor reports 1920×1080 and
the component getters agree with `get_monitor_size`. -/
theorem monitor_width_height_from_size_witness :
    okContext.window.MonitorSpec ∧
    get_monitor_size okContext 0 = .ok (1920, 1080) ∧
    get_monitor_width okContext 0 = .ok 1920 ∧
    get_monitor_height okContext 0 = .ok 1080 := by
  have hms : okContext.window.MonitorSpec := by
    intro i e he
    simp [okContext, okWindow] at he
  refine ⟨hms, rfl, ?_, ?_⟩
  · exact ((monitor_width_height_from_size okContext 0 hms).1 1920).mpr ⟨1080, rfl⟩
  · exact ((monitor_width_height_from_size okContext 0 hms).2.1 1080).mpr ⟨1920, rfl⟩

/-- Claim C9: `set_width` behaves exactly as `set_size` at the current height,
`set_height` exactly as `set_size` at the current width; hence on success
`set_width` leaves the height unchanged and `set_height` leaves the width
unchanged. -/
theorem set_width_preserves_height (ctx ctx' ctx'' : Context) (w h : Int) :
    set_width ctx w = set_size ctx w (get_height ctx) ∧
    set_height ctx h = set_size ctx (get_width ctx) h ∧
    (set_width ctx w = .ok ctx' →
      get_width ctx' = w ∧ get_height ctx' = get_height ctx) ∧
    (set_height ctx h = .ok ctx'' →
      get_height ctx'' = h ∧ get_width ctx'' = get_width ctx) := by
  refine ⟨rfl, rfl, ?_, ?_⟩
  · intro hok
    unfold set_width set_size Window.set_window_size at hok
    rcases hout : ctx.window.sizeOutcome w ctx.window.get_window_height with _ | e
    · simp [hout, Except.map] at hok
      subst hok
      simp [get_width, get_height, Window.get_window_width, Window.get_window_height]
    · simp [hout, Except.map] at hok
  · intro hok
    unfold set_height set_size Window.set_window_size at hok
    rcases hout : ctx.window.sizeOutcome ctx.window.get_window_width h with _ | e
    · simp [hout, Except.map] at hok
      subst hok
      simp [get_width, get_height, Window.get_window_width, Window.get_window_height]
    · simp [hout, Except.map] at hok

/-- Witness for C9: resizing `okContext` (640×480) to width 800 succeeds and
keeps the height at 480. -/
theorem set_width_preserves_height_witness :
    set_width okContext 800 =
      .ok { okContext with window := { okWindow with width := 800, height := 480 } } ∧
    get_width { okContext with window := { okWindow with width := 800, height := 480 } }
      = 800 ∧
    get_height { okContext with window := { okWindow with width := 800, height := 480 } }
      = get_height okContext := by
  refine ⟨rfl, ?_, ?_⟩
  · exact ((set_width_preserves_height okContext
      { okContext with window := { okWindow with width := 800, height := 480 } }
      okContext 800 480).2.2.1 rfl).1
  · exact ((set_width_preserves_height okContext
      { okContext with window := { okWindow with width := 800, height := 480 } }
      okContext 800 480).2.2.1 rfl).2

-- -------------------------------------------------------------------------
-- Theorems: claim C2 (camera matrix composition).
-- -------------------------------------------------------------------------

/-- Claim C2: the camera matrix produced by `update` and returned by
`as_matrix` is the composition translate by -position, then rotate by
-rotation, then scale by zoom, then translate by (viewportWidth / 2,
viewportHeight / 2) — applied to any world point it performs exactly those
four steps in that order; in particular, for position (0,0), rotation 0,
zoom 1 and a 640×480 viewport it maps world point (0,0) to screen point
(320,240). -/
theorem camera_matrix_composition (trig : Trig) (cam : Camera) (p : Vec2)
    (hcos : trig.cos 0 = 1) (hsin : trig.sin 0 = 0) :
    ((cam.update trig).as_matrix).apply p =
      (Mat3.translation { x := cam.viewport_width / 2, y := cam.viewport_height / 2 }).apply
        ((Mat3.scaling cam.zoom).apply
          ((Mat3.rotationZ (trig.cos (-cam.rotation)) (trig.sin (-cam.rotation))).apply
            ((Mat3.translation { x := -cam.position.x, y := -cam.position.y }).apply p))) ∧
    (({ cam with
          position := ({ x := 0, y := 0 } : Vec2),
          rotation := 0, zoom := 1,
          viewport_width := 640, viewport_height := 480 } : Camera).update trig).as_matrix.apply
        { x := 0, y := 0 } =
      { x := 320, y := 240 } := by
  constructor
  · simp only [Camera.update, Camera.as_matrix, Mat3.mul, Mat3.apply,
      Mat3.translation, Mat3.rotationZ, Mat3.scaling, Vec2.mk.injEq]
    constructor <;> ring
  · simp only [Camera.update, Camera.as_matrix, Mat3.mul, Mat3.apply,
      Mat3.translation, Mat3.rotationZ, Mat3.scaling, neg_zero, hcos, hsin,
      Vec2.mk.injEq]
    norm_num

/-- Witness for C2: with the exact zero-angle trigonometric evaluation and the
concrete 640×480 camera, the updated matrix maps the world origin to the
viewport center (320, 240). -/
theorem camera_matrix_composition_witness :
    trigZero.cos 0 = 1 ∧ trigZero.sin 0 = 0 ∧
    (({ exampleCamera with
          position := ({ x := 0, y := 0 } : Vec2),
          rotation := 0, zoom := 1,
          viewport_width := 640, viewport_height := 480 } : Camera).update trigZero).as_matrix.apply
        { x := 0, y := 0 } =
      { x := 320, y := 240 } :=
  ⟨rfl, rfl,
    (camera_matrix_composition trigZero exampleCamera { x := 0, y := 0 } rfl rfl).2⟩

end Tetra
